import Mathlib

/-!
Verification development for the DOCAI compliance-analysis pipeline
(`backend/app/models/compliance.py`, `public_data.py`, `ai_models.py`).

The Python code is shallowly embedded over `List Char` / `String`:
Python `float` scoring arithmetic becomes `ℚ` (the constants 0.3, 0.5, …
are exact decimals, and every comparison the claims depend on is exact),
Python substring tests (`in`) become an executable `containsL`, and the
external zero-shot classifier — an excluded collaborator per the spec —
is a function parameter.  Character-class predicates (printable,
whitespace, word characters) follow Python's definitions on ASCII and
treat code points ≥ 128 as printable non-whitespace; theorems that need
the character tables therefore restrict inputs to ASCII.
-/

/-- Python's lower(): ASCII case folding of a character list. -/
def lowerL (cs : List Char) : List Char := cs.map Char.toLower

/-- Does `pre` occur at the head of `cs`?  (Python `str.startswith`.) -/
def startsL : List Char → List Char → Bool
  | [], _ => true
  | _ :: _, [] => false
  | a :: as, b :: bs => a == b && startsL as bs

/-- Python `needle in hay` substring test on character lists. -/
def containsL (needle : List Char) : List Char → Bool
  | [] => needle.isEmpty
  | c :: cs => startsL needle (c :: cs) || containsL needle cs

/-- Python `str.find`: index of the first occurrence of `needle`, if any. -/
def findIdxSub (needle : List Char) : List Char → Option Nat
  | [] => if needle.isEmpty then some 0 else none
  | c :: cs =>
    if startsL needle (c :: cs) then some 0
    else (findIdxSub needle cs).map (· + 1)

/-- Python str whitespace on ASCII: \t \n \v \f \r, space, and \x1c-\x1f
(the same set backs `str.isspace`, `str.strip`, and the regex class \s). -/
def isWsA (c : Char) : Bool :=
  decide ((9 ≤ c.toNat ∧ c.toNat ≤ 13) ∨ (28 ≤ c.toNat ∧ c.toNat ≤ 31) ∨ c.toNat = 32)

/-- Python `str.isprintable` on ASCII (0x20–0x7e); code points ≥ 128 are
modelled as printable. -/
def isPrintableA (c : Char) : Bool :=
  decide ((32 ≤ c.toNat ∧ c.toNat ≤ 126) ∨ 128 ≤ c.toNat)

/-- The character class removed by `re.sub(r'[\x00-\x08\x0B-\x0C\x0E-\x1F\x7F]', '', t)`. -/
def isRC (c : Char) : Bool :=
  decide (c.toNat ≤ 8 ∨ c.toNat = 11 ∨ c.toNat = 12 ∨
    (14 ≤ c.toNat ∧ c.toNat ≤ 31) ∨ c.toNat = 127)

/-- Unicode control characters in the ASCII range (category Cc). -/
def isCtrl (c : Char) : Bool := decide (c.toNat < 32 ∨ c.toNat = 127)

/-- Python `str.strip()` with no argument: drop whitespace from both ends. -/
def pyStripL (cs : List Char) : List Char :=
  ((cs.dropWhile isWsA).reverse.dropWhile isWsA).reverse

/-- The guard `not text or not text.strip()` used by `analyze_document`
and `clean_text_for_preview`. -/
def emptyCheck (cs : List Char) : Bool :=
  cs.isEmpty || (pyStripL cs).isEmpty

/-- Python `sep.join(parts)` on character lists. -/
def joinSep (sep : List Char) : List (List Char) → List Char
  | [] => []
  | [p] => p
  | p :: q :: rest => p ++ sep ++ joinSep sep (q :: rest)

/-- One regulatory catalog entry (`REGULATORY_SOURCES` in `public_data.py`). -/
structure RegSource where
  keyword : String
  title : String
  url : String
  description : String
  categories : List String
deriving DecidableEq

/-- The static regulatory catalog from `public_data.py`, in declaration order. -/
def REGULATORY_SOURCES : List RegSource := [
  { keyword := "money laundering",
    title := "Bank Secrecy Act",
    url := "https://www.fincen.gov/resources/statutes-regulations/bank-secrecy-act",
    description := "Regulations to combat money laundering and terrorist financing.",
    categories := ["financial", "banking", "anti_money_laundering"] },
  { keyword := "lending",
    title := "Truth in Lending Act",
    url := "https://www.consumerfinance.gov/policy-compliance/guidance/implementation-guidance/taft/",
    description := "Guidelines ensuring transparency in lending practices.",
    categories := ["financial", "lending", "consumer_protection"] },
  { keyword := "data privacy",
    title := "General Data Protection Regulation (GDPR)",
    url := "https://gdpr-info.eu/",
    description := "Comprehensive data privacy regulation in the EU.",
    categories := ["data_privacy", "personal_data", "data_protection"] },
  { keyword := "health information",
    title := "Health Insurance Portability and Accountability Act (HIPAA)",
    url := "https://www.hhs.gov/hipaa/for-professionals/index.html",
    description := "Regulations for protecting sensitive patient health information.",
    categories := ["healthcare", "medical_data", "patient_privacy"] },
  { keyword := "payment processing",
    title := "Payment Card Industry Data Security Standard (PCI DSS)",
    url := "https://www.pcisecuritystandards.org/",
    description := "Security standards for organizations that handle credit card information.",
    categories := ["payment_processing", "financial_data", "credit_card"] },
  { keyword := "financial reporting",
    title := "Sarbanes-Oxley Act (SOX)",
    url := "https://www.sec.gov/spotlight/sarbanes-oxley.htm",
    description := "Regulations for financial disclosure and corporate governance.",
    categories := ["financial_reporting", "accounting", "corporate_governance"] },
  { keyword := "information security",
    title := "ISO 27001 Standards",
    url := "https://www.iso.org/isoiec-27001-information-security.html",
    description := "Information security management standards.",
    categories := ["information_security", "risk_management", "security_controls"] },
  { keyword := "consumer protection",
    title := "Consumer Financial Protection Bureau (CFPB) Regulations",
    url := "https://www.consumerfinance.gov/rules-policy/",
    description := "Regulations to protect consumers in the financial marketplace.",
    categories := ["consumer_protection", "financial", "lending"] },
  { keyword := "securities",
    title := "Securities and Exchange Commission (SEC) Regulations",
    url := "https://www.sec.gov/rules",
    description := "Regulations governing securities markets and protecting investors.",
    categories := ["securities", "investing", "financial_markets"] },
  { keyword := "anti-corruption",
    title := "Foreign Corrupt Practices Act (FCPA)",
    url := "https://www.justice.gov/criminal-fraud/foreign-corrupt-practices-act",
    description := "U.S. law prohibiting bribery of foreign officials to obtain business advantages.",
    categories := ["anti_corruption", "bribery", "international_business"] },
  { keyword := "environmental compliance",
    title := "Environmental Protection Agency (EPA) Regulations",
    url := "https://www.epa.gov/laws-regulations",
    description := "Regulations to protect human health and the environment.",
    categories := ["environmental", "pollution", "sustainability"] },
  { keyword := "employment",
    title := "Equal Employment Opportunity Commission (EEOC) Regulations",
    url := "https://www.eeoc.gov/laws-regulations",
    description := "Regulations prohibiting workplace discrimination.",
    categories := ["employment", "discrimination", "workplace"] },
  { keyword := "data breach",
    title := "Data Breach Notification Laws",
    url := "https://www.ncsl.org/technology-and-communication/security-breach-notification-laws",
    description := "State laws requiring notification of security breaches involving personal information.",
    categories := ["data_privacy", "security_breach", "notification"] },
  { keyword := "export control",
    title := "Export Administration Regulations (EAR)",
    url := "https://www.bis.doc.gov/index.php/regulations/export-administration-regulations-ear",
    description := "Regulations governing exports of commercial and dual-use items.",
    categories := ["export_control", "international_trade", "national_security"] },
  { keyword := "healthcare compliance",
    title := "Centers for Medicare & Medicaid Services (CMS) Regulations",
    url := "https://www.cms.gov/regulations-and-guidance/regulations-and-guidance",
    description := "Regulations for healthcare providers and facilities.",
    categories := ["healthcare", "medicare", "medicaid"] }
]

/-- The `related_terms_dict` table of `_get_related_terms`. -/
def relatedTermsTable : List (String × List String) := [
  ("money laundering", ["aml", "anti-money laundering", "financial crime", "suspicious activity", "kyc", "know your customer"]),
  ("lending", ["loan", "credit", "mortgage", "financing", "borrowing", "interest rate"]),
  ("data privacy", ["personal data", "data protection", "privacy policy", "data subject", "data controller", "data processor"]),
  ("health information", ["phi", "protected health information", "medical records", "patient data", "healthcare data"]),
  ("payment processing", ["payment card", "credit card", "debit card", "card processing", "merchant services"]),
  ("financial reporting", ["financial statements", "accounting", "audit", "disclosure", "financial records"]),
  ("information security", ["infosec", "cybersecurity", "data security", "network security", "security controls"]),
  ("consumer protection", ["consumer rights", "unfair practices", "deceptive practices", "consumer complaints"]),
  ("securities", ["stocks", "bonds", "investments", "securities trading", "securities fraud"]),
  ("anti-corruption", ["bribery", "corruption", "foreign officials", "improper payments"]),
  ("environmental compliance", ["environmental regulations", "pollution control", "emissions", "waste management"]),
  ("employment", ["labor laws", "workplace", "discrimination", "harassment", "equal opportunity"]),
  ("data breach", ["security breach", "data leak", "unauthorized access", "data compromise"]),
  ("export control", ["export regulations", "trade compliance", "sanctions", "restricted items"]),
  ("healthcare compliance", ["healthcare regulations", "medicare compliance", "medicaid compliance"])
]

/-- `_get_related_terms(keyword)`: `related_terms_dict.get(keyword.lower(), [])`. -/
def getRelatedTerms (keyword : String) : List String :=
  match relatedTermsTable.find? (fun p => p.1 == String.mk (lowerL keyword.data)) with
  | some p => p.2
  | none => []

/-- One search result of `search_regulatory_sources`. -/
structure SourceMatch where
  source_name : String
  source_url : String
  source_description : String
  relevance_score : ℚ
  matched_categories : List String
deriving DecidableEq

/-- The space form of a category: `category.replace("_", " ")` as the
matcher computes it before the human-readable check. -/
def spaceFormL (category : String) : List Char :=
  category.data.map (fun c => if c == '_' then ' ' else c)

/-- The body of the per-category loop of `search_regulatory_sources`:
`+0.3` when the category with underscores replaced by spaces occurs in the
lowercased text, and `+0.3` when the raw underscored string occurs; the
category is recorded in `matched_categories` at most once. -/
def catStep (tl : List Char) (acc : ℚ × List String) (category : String) : ℚ × List String :=
  let category_term := spaceFormL category
  let acc := if containsL category_term tl then (acc.1 + 3/10, acc.2 ++ [category]) else acc
  if containsL category.data tl then
    (acc.1 + 3/10, if category ∈ acc.2 then acc.2 else acc.2 ++ [category])
  else acc

/-- The whole per-category loop, folded in catalog declaration order. -/
def categoryFold (tl : List Char) (init : ℚ × List String) (cats : List String) : ℚ × List String :=
  cats.foldl (catStep tl) init

/-- The per-source scoring of `search_regulatory_sources`: keyword (+0.5),
category loop, title (+0.4), related terms (+0.2, once).  Returns the raw
(unclamped) score and the matched categories. -/
def scoreSource (src : RegSource) (tl : List Char) : ℚ × List String :=
  let relevance_score : ℚ := 0
  let relevance_score :=
    if containsL (lowerL src.keyword.data) tl then relevance_score + 5/10 else relevance_score
  let p := categoryFold tl (relevance_score, []) src.categories
  let relevance_score :=
    if containsL (lowerL src.title.data) tl then p.1 + 4/10 else p.1
  let related_terms := getRelatedTerms src.keyword
  let relevance_score :=
    if related_terms.any (fun term => containsL (lowerL term.data) tl) then relevance_score + 2/10
    else relevance_score
  (relevance_score, p.2)

/-- The results list of `search_regulatory_sources` before the final sort:
catalog entries in declaration order, kept when the score reaches the
threshold, with the score clamped to at most 1. -/
def search_results_unsorted (text : String) (threshold : ℚ) : List SourceMatch :=
  REGULATORY_SOURCES.filterMap (fun src =>
    let p := scoreSource src (lowerL text.data)
    if threshold ≤ p.1 then
      some { source_name := src.title, source_url := src.url,
             source_description := src.description,
             relevance_score := min p.1 1, matched_categories := p.2 }
    else none)

/-- Stable descending insertion by a rational key: `x` is placed before the
first element whose key is ≤ its own, so existing order is kept on ties. -/
def insDescBy (key : α → ℚ) (x : α) : List α → List α
  | [] => [x]
  | y :: ys => if key y ≤ key x then x :: y :: ys else y :: insDescBy key x ys

/-- Stable sort, descending by a rational key.  Python's `list.sort` with
`reverse=True` is the stable descending sort, which is extensionally unique,
so this insertion sort models it exactly. -/
def sortDescBy (key : α → ℚ) : List α → List α
  | [] => []
  | x :: xs => insDescBy key x (sortDescBy key xs)

/-- `search_regulatory_sources(text, threshold=0.3)` from `public_data.py`. -/
def search_regulatory_sources (text : String) (threshold : ℚ := 3/10) : List SourceMatch :=
  sortDescBy (fun m => m.relevance_score) (search_results_unsorted text threshold)

/-- A match enriched by the classifier fusion of `generate_enhanced_citations`. -/
structure EnhancedMatch where
  base : SourceMatch
  transformer_score : ℚ
deriving DecidableEq

/-- `generate_enhanced_citations(text, threshold=0.3)` from `ai_models.py`.
The external zero-shot classifier is the parameter `tr`: it returns the
"relevant"-label score for the first 1000 characters of the text (the code
calls the pipeline with labels ["relevant", "not relevant"] and reads the
score at the index of "relevant"). -/
def generate_enhanced_citations (tr : String → ℚ) (text : String) (threshold : ℚ := 3/10) :
    List EnhancedMatch :=
  let keyword_matches := search_regulatory_sources text (2/10)
  let enhanced_matches := keyword_matches.filterMap (fun m =>
    let transformer_score := tr (String.mk (text.data.take 1000))
    let combined_score := 3/10 * m.relevance_score + 7/10 * transformer_score
    if threshold ≤ combined_score then
      some { base := { m with relevance_score := combined_score },
             transformer_score := transformer_score }
    else none)
  sortDescBy (fun e => e.base.relevance_score) enhanced_matches

/-- One entry of `extract_key_findings`'s result list. -/
structure Finding where
  finding : String
  risk_level : String
  context : String
deriving DecidableEq

/-- The `compliance_keywords` dict of `compliance.py`, in insertion order. -/
def compliance_keywords : List (String × List String) := [
  ("high_risk", ["violation", "non-compliance", "breach", "illegal", "prohibited",
                 "penalty", "fine", "lawsuit", "litigation", "criminal"]),
  ("medium_risk", ["requirement", "regulation", "policy", "standard", "guideline",
                   "law", "rule", "compliance", "mandatory", "obligation"]),
  ("low_risk", ["recommendation", "best practice", "suggestion", "advisory",
                "optional", "consideration", "may", "might", "could"])
]

/-- `extract_context(text, keyword, context_size=50)` from `compliance.py`:
the first case-insensitive occurrence of the keyword, with a 50-character
window either side, clamped to the document and marked with ellipses
where clipped. -/
def extract_context (text : String) (keyword : String) (context_size : Nat := 50) : String :=
  let text_lower := lowerL text.data
  let keyword_lower := lowerL keyword.data
  match findIdxSub keyword_lower text_lower with
  | none => ""
  | some position =>
    let start := position - context_size
    let stop := min text.data.length (position + keyword.data.length + context_size)
    let context := (text.data.take stop).drop start
    let context := if 0 < start then "...".data ++ context else context
    let context := if stop < text.data.length then context ++ "...".data else context
    String.mk context

/-- The full findings list of `extract_key_findings` before the cap: both
nested loops, tiers in dict insertion order, keywords in list order. -/
def allFindings (text : String) : List Finding :=
  compliance_keywords.foldl (fun acc p =>
    p.2.foldl (fun acc2 keyword =>
      if containsL keyword.data (lowerL text.data) then
        acc2 ++ [{ finding := "Contains reference to '" ++ keyword ++ "'",
                   risk_level := p.1,
                   context := extract_context text keyword }]
      else acc2) acc) []

/-- `extract_key_findings(text)` from `compliance.py`: the keyword scan
capped at 10 findings. -/
def extract_key_findings (text : String) : List Finding :=
  let findings := allFindings text
  if 10 < findings.length then findings.take 10 else findings

/-- `check_against_public_data(text)` from `compliance.py`.  The optional
agent-based search is a parameter: `agentsAvailable` models whether
importing `regulatory_agents` succeeded, and `agents` models
`search_with_agents` (an exception becomes `.error`).  A non-empty agent
result is returned as-is; an empty or failing one falls back to
`search_regulatory_sources`. -/
def check_against_public_data (agentsAvailable : Bool)
    (agents : String → Except String (List SourceMatch)) (text : String) :
    List SourceMatch :=
  if agentsAvailable then
    match agents text with
    | .ok agent_results =>
      if agent_results.isEmpty then search_regulatory_sources text else agent_results
    | .error _ => search_regulatory_sources text
  else search_regulatory_sources text

/-- Python regex \w on ASCII: letters, digits, underscore. -/
def isWordC (c : Char) : Bool := c.isAlpha || c.isDigit || c == '_'

/-- The character class [\d.] of the PDF header pattern. -/
def isDigitDot (c : Char) : Bool := c.isDigit || c == '.'

/-- Hex digit, for the pattern \\x[0-9a-fA-F]2. -/
def isHexD (c : Char) : Bool :=
  c.isDigit || ('a' ≤ c && c ≤ 'f') || ('A' ≤ c && c ≤ 'F')

/-- Try one alternative of the PDF pattern
%PDF-[digits.]+ | Title(...) | Author(...) | Subject(...) at the current
position.  Returns the captured group (if the alternative has one) and the
length of text consumed. -/
def tryPdfAt (cs : List Char) : Option (Option (List Char) × Nat) :=
  if startsL "%PDF-".data cs then
    let run := (cs.drop 5).takeWhile isDigitDot
    if run.isEmpty then none else some (none, 5 + run.length)
  else if startsL "Title(".data cs then
    let content := (cs.drop 6).takeWhile (fun c => c != ')')
    if content.isEmpty then none
    else if startsL [')'] (cs.drop (6 + content.length)) then
      some (some content, 6 + content.length + 1)
    else none
  else if startsL "Author(".data cs then
    let content := (cs.drop 7).takeWhile (fun c => c != ')')
    if content.isEmpty then none
    else if startsL [')'] (cs.drop (7 + content.length)) then
      some (some content, 7 + content.length + 1)
    else none
  else if startsL "Subject(".data cs then
    let content := (cs.drop 8).takeWhile (fun c => c != ')')
    if content.isEmpty then none
    else if startsL [')'] (cs.drop (8 + content.length)) then
      some (some content, 8 + content.length + 1)
    else none
  else none

/-- Left-to-right non-overlapping scan of the PDF pattern (`re.findall`).
Returns whether any alternative matched at all (`pdf_parts` non-empty) and
the non-empty captured groups (`pdf_info`).  Fuel is the remaining length. -/
def pdfScanGo : Nat → List Char → Bool × List (List Char)
  | 0, _ => (false, [])
  | _, [] => (false, [])
  | fuel + 1, cs@(_ :: rest) =>
    match tryPdfAt cs with
    | some (info, k) =>
      let r := pdfScanGo fuel (cs.drop k)
      (true, match info with
             | some i => i :: r.2
             | none => r.2)
    | none => pdfScanGo (fuel + 1 - 1) rest

/-- `re.findall` of the PDF pattern over the whole text. -/
def pdfScan (cs : List Char) : Bool × List (List Char) := pdfScanGo cs.length cs

/-- Does the closing-tag pattern </ \w+ > match at this position? -/
def xmlCloseAt : List Char → Bool
  | '<' :: '/' :: rest =>
    let run := rest.takeWhile isWordC
    !run.isEmpty && startsL ['>'] (rest.drop run.length)
  | _ => false

/-- Scan the `.*?` middle of the XML pattern: look for a closing tag,
never crossing a newline (a dot does not match newline). -/
def xmlScanMiddle : List Char → Bool
  | [] => false
  | cs@(c :: rest) => xmlCloseAt cs || (c != '\n' && xmlScanMiddle rest)

/-- Does the full tag-pair pattern match starting at this position?  The
open tag is < word-char [non->]* > — equivalently a word char after the
< and the first following > — then the middle scan for a closing tag. -/
def xmlOpenAt : List Char → Bool
  | '<' :: c2 :: rest =>
    isWordC c2 &&
      (let inner := (c2 :: rest).takeWhile (fun c => c != '>')
       startsL ['>'] ((c2 :: rest).drop inner.length) &&
         xmlScanMiddle ((c2 :: rest).drop (inner.length + 1)))
  | _ => false

/-- `re.search` of the XML/HTML tag-pair pattern: does it match anywhere? -/
def hasXmlTag : List Char → Bool
  | [] => false
  | cs@(_ :: rest) => xmlOpenAt cs || hasXmlTag rest

/-- `re.findall(r'>([^<]+)<', text)`: leftmost non-overlapping matches,
returning the captured inter-tag contents. -/
def tagContentGo : Nat → List Char → List (List Char)
  | 0, _ => []
  | _, [] => []
  | fuel + 1, c :: rest =>
    if c == '>' then
      let run := rest.takeWhile (fun d => d != '<')
      if !run.isEmpty && startsL ['<'] (rest.drop run.length) then
        run :: tagContentGo fuel (rest.drop (run.length + 1))
      else tagContentGo fuel rest
    else tagContentGo fuel rest

/-- All inter-tag text runs of the text. -/
def tagContents (cs : List Char) : List (List Char) := tagContentGo cs.length cs

/-- `re.findall(r'[A-Za-z]3,')`-style scan: maximal alphabetic runs of
length at least 3, left to right. -/
def alphaWordsGo : Nat → List Char → List (List Char)
  | 0, _ => []
  | _, [] => []
  | fuel + 1, cs@(c :: rest) =>
    if c.isAlpha then
      let run := cs.takeWhile Char.isAlpha
      if 3 ≤ run.length then run :: alphaWordsGo fuel (cs.drop run.length)
      else alphaWordsGo fuel (cs.drop run.length)
    else alphaWordsGo (fuel + 1 - 1) rest

/-- The alphabetic fragments salvaged from binary-looking text. -/
def alphaWords (cs : List Char) : List (List Char) := alphaWordsGo cs.length cs

/-- `non_printable_count`: characters that are neither printable nor
whitespace. -/
def npcount (cs : List Char) : Nat :=
  (cs.filter (fun c => !(isPrintableA c || isWsA c))).length

/-- Replace each non-printable non-whitespace character with a space. -/
def replaceNP (cs : List Char) : List Char :=
  cs.map (fun c => if isPrintableA c || isWsA c then c else ' ')

/-- Collapse every maximal whitespace run to one space
(`re.sub(r'\s+', ' ', text)`); `prevWs` records whether the previous
character was part of a run already emitted. -/
def collapseGo (prevWs : Bool) : List Char → List Char
  | [] => []
  | c :: cs =>
    if isWsA c then
      if prevWs then collapseGo true cs else ' ' :: collapseGo true cs
    else c :: collapseGo false cs

/-- Whitespace-run collapse over a whole text. -/
def collapseWs (cs : List Char) : List Char := collapseGo false cs

/-- Steps (e) of the cleaner: optional space-replacement (only when some
non-printable exists), control-class removal, whitespace collapse. -/
def mainCleaned (cs : List Char) : List Char :=
  collapseWs ((if 0 < npcount cs then replaceNP cs else cs).filter (fun c => !(isRC c)))

/-- Is the pattern obj \s+ << .* >> \s+ endobj alive from this position on
(searching for the >> part, dots not crossing newlines)? -/
def objTail : List Char → Bool
  | [] => false
  | cs@(c :: rest) =>
    (startsL ">>".data cs &&
      (let after := cs.drop 2
       let r2 := after.takeWhile isWsA
       !r2.isEmpty && startsL "endobj".data (after.drop r2.length))) ||
    (c != '\n' && objTail rest)

/-- Does obj \s+ << .* >> \s+ endobj match at this position? -/
def objPatAt (cs : List Char) : Bool :=
  startsL "obj".data cs &&
    (let after := cs.drop 3
     let r1 := after.takeWhile isWsA
     !r1.isEmpty && startsL "<<".data (after.drop r1.length) &&
       objTail (after.drop (r1.length + 2)))

/-- Search stream .* endstream from this position (dots not crossing
newlines). -/
def streamTail : List Char → Bool
  | [] => false
  | cs@(c :: rest) => startsL "endstream".data cs || (c != '\n' && streamTail rest)

/-- Does stream .* endstream match at this position? -/
def streamPatAt (cs : List Char) : Bool :=
  startsL "stream".data cs && streamTail (cs.drop 6)

/-- Does the escaped-hex pattern backslash x hex hex match at this position? -/
def hexEscAt : List Char → Bool
  | '\\' :: 'x' :: h1 :: h2 :: _ => isHexD h1 && isHexD h2
  | _ => false

/-- `re.search` as existence of a match at some position. -/
def anyPos (p : List Char → Bool) : List Char → Bool
  | [] => false
  | cs@(_ :: rest) => p cs || anyPos p rest

/-- Python `rindex`: the index of the last occurrence of `c` in `l`
(0 when absent; callers guard on presence). -/
def lastIdxOf (c : Char) (l : List Char) : Nat :=
  l.enum.foldl (fun acc p => if p.2 == c then p.1 else acc) 0

/-- Step (f) of the cleaner: truncate to `ml` characters, breaking at the
last space inside the window when there is one, and append an ellipsis. -/
def truncStep (ml : Nat) (cs : List Char) : List Char :=
  if ml < cs.length then
    let head := cs.take ml
    if head.contains ' ' then head.take (lastIdxOf ' ' head) ++ "...".data
    else head ++ "...".data
  else cs

/-- `clean_text_for_preview(text, max_length)` from `ai_models.py`, on
character lists.  Branches in source order: empty input, PDF signature,
XML/HTML tag pair, binary ratio over 30%, then the general path
(replacement, control removal, whitespace collapse, binary-substructure
labels, truncation, final strip). -/
def cleanCore (ml : Nat) (cs : List Char) : List Char :=
  if emptyCheck cs then "[Binary or non-text content]".data
  else if startsL "%PDF".data (pyStripL cs) then
    let scan := pdfScan cs
    if scan.1 then
      if scan.2.isEmpty then "PDF Document [binary content]".data
      else "PDF Document: ".data ++ joinSep ", ".data scan.2
    else "PDF Document [binary content]".data
  else if hasXmlTag cs then
    if cs.length ≤ ml then
      cs.map (fun c => if isPrintableA c || isWsA c then c else ' ')
    else
      let tc := tagContents cs
      let clean_content := pyStripL (joinSep [' '] tc)
      if !tc.isEmpty && !clean_content.isEmpty then
        "XML/HTML content: ".data ++ clean_content.take (ml - 20) ++ "...".data
      else cs.take ml ++ "...".data
  else if (3 : ℚ)/10 * cs.length < npcount cs then
    let words := alphaWords cs
    if words.isEmpty then "[Binary content]".data
    else "Binary content with text fragments: ".data ++
      joinSep [' '] (words.take 5) ++ "...".data
  else
    let t := mainCleaned cs
    if anyPos objPatAt t then "PDF Object Structure [technical content]".data
    else if anyPos streamPatAt t then "PDF Stream Data [technical content]".data
    else if containsL "base64,".data t then "Base64 Encoded Data [technical content]".data
    else if anyPos hexEscAt t then "Escaped Binary Data [technical content]".data
    else
      let t2 := truncStep ml t
      if (pyStripL t2).isEmpty then "[Binary or non-text content]".data
      else pyStripL t2

/-- `clean_text_for_preview` on `String`, default `max_length=100`. -/
def clean_text_for_preview (text : String) (max_length : Nat := 100) : String :=
  String.mk (cleanCore max_length text.data)

/-- One per-section classification result of `analyze_document_sections`. -/
structure SectionResult where
  section_number : Nat
  section_text : String
  status : String
  confidence : ℚ
deriving DecidableEq

/-- The external collaborators `analyze_document` depends on: the
zero-shot classifier (`analyze_compliance`, returning top label and
confidence), the "relevant"-label score used by the citation fusion, and
the optional agent-based search of `check_against_public_data`. -/
structure Clf where
  analyze : String → String × ℚ
  relevant : String → ℚ
  agentsAvailable : Bool
  agents : String → Except String (List SourceMatch)

/-- Python's `[text[i:i+s] for i in range(0, len(text), s)]`, by fuel
(the callers always pass a positive section size). -/
def chunksGo (s : Nat) : Nat → List Char → List (List Char)
  | 0, _ => []
  | _, [] => []
  | fuel + 1, cs => cs.take s :: chunksGo s fuel (cs.drop s)

/-- Fixed-size segmentation of a text. -/
def chunksL (s : Nat) (cs : List Char) : List (List Char) := chunksGo s cs.length cs

/-- `analyze_document_sections(text, section_size)` from `ai_models.py`:
classify each chunk independently and attach a cleaned preview. -/
def analyze_document_sections (clf : Clf) (text : String) (section_size : Nat) :
    List SectionResult :=
  (chunksL section_size text.data).enum.map (fun p =>
    let r := clf.analyze (String.mk p.2)
    { section_number := p.1 + 1,
      section_text := clean_text_for_preview (String.mk p.2) 100,
      status := r.1,
      confidence := r.2 })

/-- Python `str.replace(old, new)`: all non-overlapping occurrences, left
to right, by fuel. -/
def replAllGo (old new : List Char) : Nat → List Char → List Char
  | 0, cs => cs
  | _, [] => []
  | fuel + 1, c :: cs =>
    if !old.isEmpty && startsL old (c :: cs) then
      new ++ replAllGo old new fuel ((c :: cs).drop old.length)
    else c :: replAllGo old new fuel cs

/-- Python `str.replace` on `String`. -/
def strReplace (s old new : String) : String :=
  String.mk (replAllGo old.data new.data s.data.length s.data)

/-- The keyword recovered from a finding's text in
`generate_recommendations`: strip the template prefix, then drop the
quotes. -/
def findingKeyword (f : Finding) : String :=
  strReplace (strReplace f.finding "Contains reference to '" "") "'" ""

/-- `generate_recommendations(findings, problematic_sections)` from
`compliance.py`, statement by statement: high-risk advisories, section
advisories, the comprehensive-review advisory, then the fallback when
nothing was produced. -/
def generate_recommendations (findings : List Finding)
    (problematic_sections : List SectionResult) : List String :=
  let recommendations : List String := []
  let high_risk_findings := findings.filter (fun f => f.risk_level == "high_risk")
  let recommendations :=
    if high_risk_findings.isEmpty then recommendations
    else
      (high_risk_findings.take 3).foldl (fun recs f =>
          recs ++ ["Review and revise content related to '" ++ findingKeyword f ++
                   "' to ensure compliance."])
        (recommendations ++
          ["Address high-risk compliance issues identified in the key findings section."])
  let recommendations :=
    if problematic_sections.isEmpty then recommendations
    else
      let recommendations := recommendations ++
        ["Review " ++ toString problematic_sections.length ++
         " sections identified as potentially non-compliant."]
      if 3 < problematic_sections.length then
        recommendations ++
          ["Focus on the most problematic sections first (those with highest non-compliance confidence)."]
      else recommendations
  let recommendations :=
    if 5 < findings.length then
      recommendations ++
        ["Consider a comprehensive compliance review as multiple potential issues were identified."]
    else recommendations
  if recommendations.isEmpty then
    if !findings.isEmpty then
      ["Review identified findings to ensure full compliance with relevant regulations."]
    else
      ["Document appears to have good compliance, but regular reviews are recommended."]
  else recommendations

/-- The `compliance_metrics` dict of `generate_detailed_summary`. -/
structure ComplianceMetrics where
  compliant_sections : Nat
  non_compliant_sections : Nat
  compliance_percentage : ℚ
  risk_distribution : Nat × Nat × Nat
deriving DecidableEq

/-- The dict returned by `generate_detailed_summary`: metrics, top
frameworks (name, relevance, description), problematic sections
(number, confidence, preview), recommendations. -/
structure DetailedSummary where
  compliance_metrics : ComplianceMetrics
  key_regulatory_frameworks : List (String × ℚ × String)
  problematic_sections : List (Nat × ℚ × String)
  recommendations : List String
deriving DecidableEq

/-- `generate_detailed_summary(section_results, findings, public_data_checks)`
from `compliance.py`.  Note the compliance percentage divides by the count
of all sections (error sections included) and is 0 for an empty list. -/
def generate_detailed_summary (section_results : List SectionResult)
    (findings : List Finding) (public_data_checks : List SourceMatch) :
    DetailedSummary :=
  let compliant_sections := section_results.countP (fun s => s.status == "compliant")
  let non_compliant_sections := section_results.length - compliant_sections
  let compliance_percentage : ℚ :=
    if !section_results.isEmpty then
      ((compliant_sections : ℚ) / (section_results.length : ℚ)) * 100
    else 0
  let risk_counts :=
    (findings.countP (fun f => f.risk_level == "high_risk"),
     findings.countP (fun f => f.risk_level == "medium_risk"),
     findings.countP (fun f => f.risk_level == "low_risk"))
  let top_frameworks :=
    if !public_data_checks.isEmpty then
      (sortDescBy (fun m => m.relevance_score) public_data_checks).take 3
    else []
  let problematic_sections := section_results.filter (fun s =>
    s.status == "non-compliant" && (7 : ℚ)/10 < s.confidence)
  let recommendations := generate_recommendations findings problematic_sections
  { compliance_metrics :=
      { compliant_sections := compliant_sections,
        non_compliant_sections := non_compliant_sections,
        compliance_percentage := compliance_percentage,
        risk_distribution := risk_counts },
    key_regulatory_frameworks :=
      top_frameworks.map (fun f => (f.source_name, f.relevance_score, f.source_description)),
    problematic_sections :=
      problematic_sections.map (fun s => (s.section_number, s.confidence, s.section_text)),
    recommendations := recommendations }

/-- `max_length` of `analyze_document` (widened to 4096 in the source). -/
def docMaxLength : Nat := 4096

/-- `int(max_length * 0.6)`: the head part kept by truncation. -/
def first_part_length : Nat := (Int.floor ((docMaxLength : ℚ) * (6/10))).toNat

/-- `max_length - first_part_length`: the tail part kept by truncation. -/
def last_part_length : Nat := docMaxLength - first_part_length

/-- The successful payload of `analyze_document`.  `analyzedText` is the
local `text` after the truncation policy (the text every downstream stage
receives; its length is reported as `analyzed_text_length`).  The
`citations` field of the source (`format_citations`) derives presentation
metadata stamped with the wall-clock date and is outside this pure model;
`all_scores` and `warning` are likewise presentation-only and omitted. -/
structure AnalysisOk where
  status : String
  confidence : ℚ
  analyzedText : List Char
  analyzed_text_length : Nat
  original_length : Nat
  truncated : Bool
  key_findings : List Finding
  public_data_checks : List SourceMatch
  enhanced_citations : List EnhancedMatch
  section_analysis : List SectionResult
  detailed_summary : DetailedSummary

/-- The result of `analyze_document`: the early empty-input error record
(status "error", an error message, confidence 0.0, and nothing else), or
the full analysis record. -/
inductive AnalysisResult where
  | error (error_message : String) (confidence : ℚ)
  | ok (r : AnalysisOk)

/-- `analyze_document(text)` from `compliance.py`, over the abstract
classifier bundle.  The Python `try` block only guards classifier
exceptions, which the pure model's total classifier cannot raise. -/
def analyze_document (clf : Clf) (text : String) : AnalysisResult :=
  if emptyCheck text.data then .error "Empty document content" 0
  else
    let original_length := text.data.length
    let truncated := decide (docMaxLength < original_length)
    let full_text := text.data
    let t := if truncated then
        full_text.take first_part_length ++
          full_text.drop (original_length - last_part_length)
      else full_text
    let ac := clf.analyze (String.mk t)
    let findings := extract_key_findings (String.mk t)
    let public_data_checks :=
      check_against_public_data clf.agentsAvailable clf.agents (String.mk t)
    let enhanced_citations := generate_enhanced_citations clf.relevant (String.mk t)
    let section_size := 1000
    let max_sections := 10
    let section_size :=
      if section_size * max_sections < original_length then
        min 2000 (original_length / max_sections)
      else section_size
    let section_results :=
      analyze_document_sections clf
        (String.mk (full_text.take (section_size * max_sections))) section_size
    let detailed_summary :=
      generate_detailed_summary section_results findings public_data_checks
    .ok { status := ac.1, confidence := ac.2,
          analyzedText := t, analyzed_text_length := t.length,
          original_length := original_length, truncated := truncated,
          key_findings := findings, public_data_checks := public_data_checks,
          enhanced_citations := enhanced_citations,
          section_analysis := section_results,
          detailed_summary := detailed_summary }

/-- The analyzed text of a result, when the analysis ran. -/
def analyzedTextOf : AnalysisResult → Option (List Char)
  | .error _ _ => none
  | .ok r => some r.analyzedText

/-- The truncation flag of a result, when the analysis ran. -/
def truncatedOf : AnalysisResult → Option Bool
  | .error _ _ => none
  | .ok r => some r.truncated

/-- The score contribution of one category: the two independent +0.3
signals of the matcher. -/
def catContrib (tl : List Char) (category : String) : ℚ :=
  (if containsL (spaceFormL category) tl then (3 : ℚ)/10 else 0) +
  (if containsL category.data tl then (3 : ℚ)/10 else 0)

/-- Did a category contribute at least one hit? -/
def catHit (tl : List Char) (category : String) : Bool :=
  containsL (spaceFormL category) tl || containsL category.data tl

/-- A concrete constant "relevant"-score classifier for witnesses. -/
def tr0 : String → ℚ := fun _ => 1/2

/-- A concrete agent search that returns an empty result, for witnesses. -/
def agents0 : String → Except String (List SourceMatch) := fun _ => .ok []

/-- A concrete classifier bundle for witnesses. -/
def clf0 : Clf :=
  { analyze := fun _ => ("compliant", 1), relevant := tr0,
    agentsAvailable := false, agents := agents0 }

/-- The GDPR catalog entry, used by witnesses. -/
def gdprSource : RegSource :=
  { keyword := "data privacy",
    title := "General Data Protection Regulation (GDPR)",
    url := "https://gdpr-info.eu/",
    description := "Comprehensive data privacy regulation in the EU.",
    categories := ["data_privacy", "personal_data", "data_protection"] }

/-- A 4097-character document (one past the truncation limit). -/
def bigText : String := String.mk (List.replicate 4097 'a')

/-- A PDF-branch input whose Title field holds 90 characters. -/
def pdfEx : String := String.mk ("%PDF-1.4 Title(".data ++ List.replicate 90 'a' ++ ")".data)

/-- Two section results, one compliant and one errored, for the
compliance-percentage counterexample. -/
def c6secs : List SectionResult :=
  [{ section_number := 1, section_text := "p", status := "compliant", confidence := 9/10 },
   { section_number := 2, section_text := "q", status := "error", confidence := 0 }]

theorem mem_insDescBy {α : Type} (key : α → ℚ) (x y : α) (l : List α) :
    y ∈ insDescBy key x l ↔ y = x ∨ y ∈ l := by
  induction l with
  | nil => simp [insDescBy]
  | cons z zs ih =>
    by_cases h : key z ≤ key x
    · simp [insDescBy, h]
    · simp only [insDescBy, if_neg h, List.mem_cons, ih]
      tauto

theorem sorted_insDescBy {α : Type} (key : α → ℚ) (x : α) (l : List α)
    (h : l.Sorted (fun a b => key b ≤ key a)) :
    (insDescBy key x l).Sorted (fun a b => key b ≤ key a) := by
  induction l with
  | nil => simp [insDescBy]
  | cons z zs ih =>
    rw [List.sorted_cons] at h
    by_cases hzx : key z ≤ key x
    · rw [insDescBy, if_pos hzx]
      refine List.sorted_cons.mpr ⟨?_, List.sorted_cons.mpr ⟨h.1, h.2⟩⟩
      intro b hb
      rcases List.mem_cons.mp hb with hb | hb
      · exact hb ▸ hzx
      · exact le_trans (h.1 b hb) hzx
    · rw [insDescBy, if_neg hzx]
      refine List.sorted_cons.mpr ⟨?_, ih h.2⟩
      intro b hb
      rcases (mem_insDescBy key x b zs).mp hb with hb | hb
      · exact hb ▸ le_of_lt (lt_of_not_le hzx)
      · exact h.1 b hb

theorem sorted_sortDescBy {α : Type} (key : α → ℚ) (l : List α) :
    (sortDescBy key l).Sorted (fun a b => key b ≤ key a) := by
  induction l with
  | nil => simp [sortDescBy]
  | cons x xs ih => exact sorted_insDescBy key x _ ih

theorem filter_insDescBy {α : Type} (key : α → ℚ) (q : ℚ) (x : α) (l : List α) :
    (insDescBy key x l).filter (fun y => decide (key y = q)) =
      (if key x = q then [x] else []) ++ l.filter (fun y => decide (key y = q)) := by
  induction l with
  | nil => by_cases h : key x = q <;> simp [insDescBy, h]
  | cons z zs ih =>
    by_cases hzx : key z ≤ key x
    · rw [insDescBy, if_pos hzx]
      by_cases hx : key x = q <;> simp [List.filter_cons, hx]
    · rw [insDescBy, if_neg hzx]
      by_cases hx : key x = q <;> by_cases hz : key z = q <;>
        simp [List.filter_cons, hx, hz, ih]
      exact absurd (hx ▸ hz ▸ le_refl q) hzx

theorem filter_sortDescBy {α : Type} (key : α → ℚ) (q : ℚ) (l : List α) :
    (sortDescBy key l).filter (fun y => decide (key y = q)) =
      l.filter (fun y => decide (key y = q)) := by
  induction l with
  | nil => rfl
  | cons x xs ih =>
    rw [sortDescBy, filter_insDescBy, ih, List.filter_cons]
    by_cases hx : key x = q <;> simp [hx]

theorem mem_sortDescBy {α : Type} (key : α → ℚ) (y : α) (l : List α) :
    y ∈ sortDescBy key l ↔ y ∈ l := by
  induction l with
  | nil => simp [sortDescBy]
  | cons x xs ih => rw [sortDescBy, mem_insDescBy, ih, List.mem_cons]

/-- C3: for every input text (and any threshold), the list returned by
`search_regulatory_sources` is sorted non-increasingly by
`relevance_score`, and, for every score value, the retained sources
carrying that score appear exactly as in `search_results_unsorted` — the
filtered catalog in declaration order — so ties keep catalog order
(stable sort). -/
theorem search_sorted_stable (text : String) (threshold : ℚ) :
    (search_regulatory_sources text threshold).Sorted
      (fun a b => b.relevance_score ≤ a.relevance_score) ∧
    ∀ q : ℚ,
      (search_regulatory_sources text threshold).filter
          (fun m => decide (m.relevance_score = q)) =
        (search_results_unsorted text threshold).filter
          (fun m => decide (m.relevance_score = q)) :=
  ⟨sorted_sortDescBy _ _, fun q => filter_sortDescBy _ q _⟩

theorem catalog_cats_nodup : ∀ src ∈ REGULATORY_SOURCES, src.categories.Nodup := by decide

theorem categoryFold_spec (tl : List Char) (cats : List String) (hnd : cats.Nodup)
    (s0 : ℚ) (m0 : List String) (hm : ∀ c ∈ cats, c ∉ m0) :
    categoryFold tl (s0, m0) cats =
      (s0 + (cats.map (catContrib tl)).sum, m0 ++ cats.filter (catHit tl)) := by
  induction cats generalizing s0 m0 with
  | nil => simp [categoryFold]
  | cons c cs ih =>
    have hc : c ∉ m0 := hm c (List.mem_cons_self c cs)
    rw [List.nodup_cons] at hnd
    have hstep : catStep tl (s0, m0) c =
        (s0 + catContrib tl c, if catHit tl c then m0 ++ [c] else m0) := by
      simp only [catStep, catContrib, catHit]
      by_cases h1 : containsL (spaceFormL c) tl = true <;>
        by_cases h2 : containsL c.data tl = true <;>
          · simp [h1, h2, hc]
            try ring_nf
    have hfold : categoryFold tl (s0, m0) (c :: cs) =
        categoryFold tl (catStep tl (s0, m0) c) cs := rfl
    rw [hfold, hstep]
    by_cases hhit : catHit tl c
    · rw [if_pos hhit]
      rw [ih hnd.2 (s0 + catContrib tl c) (m0 ++ [c]) ?_]
      · refine Prod.ext ?_ ?_
        · simp [List.sum_cons]; ring
        · simp [List.filter_cons, hhit]
      · intro c' hc'
        simp only [List.mem_append, List.mem_singleton]
        rintro (h | rfl)
        · exact hm c' (List.mem_cons_of_mem c hc') h
        · exact hnd.1 hc'
    · rw [if_neg hhit]
      rw [ih hnd.2 (s0 + catContrib tl c) m0
        (fun c' hc' => hm c' (List.mem_cons_of_mem c hc'))]
      refine Prod.ext ?_ ?_
      · simp [List.sum_cons]; ring
      · simp [List.filter_cons, hhit]

/-- C5: for every catalog source and any text, the category loop of the
matcher adds, for each category, +0.3 when the space form occurs in the
lowercased text and, independently and additively, +0.3 when the raw
underscored form occurs; each category that contributed at least one hit
appears exactly once in `matched_categories`, in insertion order. -/
theorem category_scoring_additive (src : RegSource) (hsrc : src ∈ REGULATORY_SOURCES)
    (text : String) (s0 : ℚ) :
    categoryFold (lowerL text.data) (s0, []) src.categories =
      (s0 + (src.categories.map (catContrib (lowerL text.data))).sum,
       src.categories.filter (catHit (lowerL text.data))) := by
  simpa using categoryFold_spec (lowerL text.data) src.categories
    (catalog_cats_nodup src hsrc) s0 [] (by simp)

/-- C5 witness: the GDPR source on the text "data privacy", starting from
the keyword score 1/2. -/
theorem category_scoring_additive_witness :
    gdprSource ∈ REGULATORY_SOURCES ∧
    categoryFold (lowerL "data privacy".data) (1/2, []) gdprSource.categories =
      (1/2 + (gdprSource.categories.map (catContrib (lowerL "data privacy".data))).sum,
       gdprSource.categories.filter (catHit (lowerL "data privacy".data))) :=
  ⟨by decide, category_scoring_additive gdprSource (by decide) "data privacy" (1/2)⟩


theorem catStep_fst_le (tl : List Char) (acc : ℚ × List String) (category : String) :
    acc.1 ≤ (catStep tl acc category).1 := by
  simp only [catStep]
  split_ifs <;> simp <;> linarith

theorem categoryFold_fst_le (tl : List Char) (cats : List String) (s0 : ℚ) (m0 : List String) :
    s0 ≤ (categoryFold tl (s0, m0) cats).1 := by
  suffices h : ∀ init : ℚ × List String, init.1 ≤ (categoryFold tl init cats).1 from h (s0, m0)
  induction cats with
  | nil => intro init; simp [categoryFold]
  | cons c cs ih =>
    intro init
    have h : categoryFold tl init (c :: cs) = categoryFold tl (catStep tl init c) cs := rfl
    rw [h]
    exact le_trans (catStep_fst_le tl init c) (ih _)

theorem scoreSource_nonneg (src : RegSource) (tl : List Char) :
    0 ≤ (scoreSource src tl).1 := by
  simp only [scoreSource]
  by_cases hkw : containsL (lowerL src.keyword.data) tl = true
  · rw [if_pos hkw]
    have h1 := categoryFold_fst_le tl src.categories ((0 : ℚ) + 5/10) []
    split_ifs <;> linarith
  · rw [if_neg hkw]
    have h1 := categoryFold_fst_le tl src.categories (0 : ℚ) []
    split_ifs <;> linarith

theorem search_results_bounds (text : String) (threshold : ℚ) (m : SourceMatch)
    (hm : m ∈ search_results_unsorted text threshold) :
    0 ≤ m.relevance_score ∧ m.relevance_score ≤ 1 := by
  simp only [search_results_unsorted, List.mem_filterMap] at hm
  obtain ⟨src, hsrc, hsome⟩ := hm
  split at hsome
  · replace hsome := Option.some.inj hsome
    subst hsome
    constructor
    · exact le_min (scoreSource_nonneg src (lowerL text.data)) zero_le_one
    · exact min_le_right _ _
  · exact absurd hsome (by simp)

theorem search_score_bounds (text : String) (threshold : ℚ) (m : SourceMatch)
    (hm : m ∈ search_regulatory_sources text threshold) :
    0 ≤ m.relevance_score ∧ m.relevance_score ≤ 1 :=
  search_results_bounds text threshold m ((mem_sortDescBy _ _ _).mp hm)

/-- C2: every relevance score a caller can observe — from the keyword
matcher `search_regulatory_sources` at any threshold, or from the
classifier-fused `generate_enhanced_citations` (whose external classifier
emits a "relevant" probability in [0,1]) — lies in [0,1], for every input
text. -/
theorem relevance_unit_interval (tr : String → ℚ) (th1 th2 : ℚ) (text : String)
    (htr0 : 0 ≤ tr (String.mk (text.data.take 1000)))
    (htr1 : tr (String.mk (text.data.take 1000)) ≤ 1) (q : ℚ)
    (hq : (∃ m ∈ search_regulatory_sources text th1, m.relevance_score = q) ∨
          (∃ e ∈ generate_enhanced_citations tr text th2, e.base.relevance_score = q)) :
    0 ≤ q ∧ q ≤ 1 := by
  rcases hq with ⟨m, hm, rfl⟩ | ⟨e, he, rfl⟩
  · exact search_score_bounds text th1 m hm
  · simp only [generate_enhanced_citations, mem_sortDescBy, List.mem_filterMap] at he
    obtain ⟨m, hm, hsome⟩ := he
    have hb := search_score_bounds text (2/10) m hm
    split at hsome
    · replace hsome := Option.some.inj hsome
      subst hsome
      constructor <;> · simp only []; linarith [hb.1, hb.2, htr0, htr1]
    · exact absurd hsome (by simp)

theorem gdpr_score_eval :
    scoreSource gdprSource (lowerL "data privacy".data) = (4/5, ["data_privacy"]) := by
  have h1 : containsL (lowerL gdprSource.keyword.data) (lowerL "data privacy".data) = true := by
    decide
  have h2 : containsL (lowerL gdprSource.title.data) (lowerL "data privacy".data) = false := by
    decide
  have h3 : ((getRelatedTerms gdprSource.keyword).any
      (fun term => containsL (lowerL term.data) (lowerL "data privacy".data))) = false := by
    decide
  have c1a : containsL (spaceFormL "data_privacy") (lowerL "data privacy".data) = true := by decide
  have c1b : containsL "data_privacy".data (lowerL "data privacy".data) = false := by decide
  have c2a : containsL (spaceFormL "personal_data") (lowerL "data privacy".data) = false := by
    decide
  have c2b : containsL "personal_data".data (lowerL "data privacy".data) = false := by decide
  have c3a : containsL (spaceFormL "data_protection") (lowerL "data privacy".data) = false := by
    decide
  have c3b : containsL "data_protection".data (lowerL "data privacy".data) = false := by decide
  have h4 : categoryFold (lowerL "data privacy".data) ((0 : ℚ) + 5/10, [])
      gdprSource.categories = ((0 : ℚ) + 5/10 + 3/10, ["data_privacy"]) := by
    show List.foldl _ _ _ = _
    rw [show gdprSource.categories = ["data_privacy", "personal_data", "data_protection"] from rfl]
    simp only [List.foldl_cons, List.foldl_nil, catStep, c1a, c1b, c2a, c2b, c3a, c3b,
      if_true, if_false, Bool.false_eq_true, List.nil_append]
  simp only [scoreSource, h1, h2, h3, if_true, if_false, Bool.false_eq_true, h4]
  norm_num

theorem gdpr_in_search :
    ({ source_name := "General Data Protection Regulation (GDPR)",
       source_url := "https://gdpr-info.eu/",
       source_description := "Comprehensive data privacy regulation in the EU.",
       relevance_score := 4/5,
       matched_categories := ["data_privacy"] } : SourceMatch)
      ∈ search_regulatory_sources "data privacy" (3/10) := by
  rw [search_regulatory_sources, mem_sortDescBy]
  refine List.mem_filterMap.mpr ⟨gdprSource, by decide, ?_⟩
  show (if (3 : ℚ)/10 ≤ (scoreSource gdprSource (lowerL "data privacy".data)).1 then _ else none)
      = _
  rw [gdpr_score_eval]
  rw [if_pos (by norm_num : (3 : ℚ)/10 ≤ ((4/5 : ℚ), ["data_privacy"]).1)]
  have hmin : min ((4/5 : ℚ), ["data_privacy"]).1 1 = (4/5 : ℚ) :=
    min_eq_left (by norm_num)
  rw [hmin]
  rfl

/-- C2 witness: on the text "data privacy" with a constant-1/2 external
classifier, the GDPR source's keyword match scores 4/5, which lies in
[0,1]. -/
theorem relevance_unit_interval_witness :
    (0 ≤ tr0 (String.mk ("data privacy".data.take 1000)) ∧
     tr0 (String.mk ("data privacy".data.take 1000)) ≤ 1) ∧
    (∃ m ∈ search_regulatory_sources "data privacy" (3/10), m.relevance_score = 4/5) ∧
    (0 ≤ (4/5 : ℚ) ∧ (4/5 : ℚ) ≤ 1) :=
  ⟨⟨by norm_num [tr0], by norm_num [tr0]⟩,
   ⟨_, gdpr_in_search, rfl⟩,
   relevance_unit_interval tr0 (3/10) (3/10) "data privacy"
     (by norm_num [tr0]) (by norm_num [tr0]) (4/5) (Or.inl ⟨_, gdpr_in_search, rfl⟩)⟩

/-- C4: `extract_key_findings` returns at most 10 findings, and when the
scan produced more it returns exactly the first 10 in tier/term iteration
order (a truncation of `allFindings`, never a resample). -/
theorem findings_capped_at_ten (text : String) :
    extract_key_findings text = (allFindings text).take 10 ∧
    (extract_key_findings text).length ≤ 10 := by
  have heq : extract_key_findings text = (allFindings text).take 10 := by
    unfold extract_key_findings
    by_cases h : 10 < (allFindings text).length
    · simp only [if_pos h]
    · simp only [if_neg h]
      push_neg at h
      exact (List.take_of_length_le h).symm
  refine ⟨heq, ?_⟩
  rw [heq, List.length_take]
  omega

/-- C8: for empty or whitespace-only input, `analyze_document` returns the
top-level error record — status "error" with a human-readable message and
confidence 0.0 — and attempts no further processing: the error
constructor carries no findings, source matches, citations, or section
analysis. -/
theorem empty_input_top_level_error (clf : Clf) (text : String)
    (h : emptyCheck text.data = true) :
    analyze_document clf text = .error "Empty document content" 0 := by
  simp [analyze_document, h]

/-- C8 witness: the empty document. -/
theorem empty_input_top_level_error_witness :
    emptyCheck "".data = true ∧
    analyze_document clf0 "" = .error "Empty document content" 0 :=
  ⟨by decide, empty_input_top_level_error clf0 "" (by decide)⟩

/-- C10: when the agent-based search is available and returns an empty
list without raising, `check_against_public_data` discards it and returns
the baseline `search_regulatory_sources` result. -/
theorem agent_empty_result_falls_back
    (agents : String → Except String (List SourceMatch)) (text : String)
    (h : agents text = .ok []) :
    check_against_public_data true agents text = search_regulatory_sources text := by
  simp [check_against_public_data, h]

/-- C10 witness: a concrete agent returning the empty list. -/
theorem agent_empty_result_falls_back_witness :
    agents0 "x" = .ok [] ∧
    check_against_public_data true agents0 "x" = search_regulatory_sources "x" :=
  ⟨rfl, agent_empty_result_falls_back agents0 "x" rfl⟩

/-- C6 counterexample: with one compliant section and one errored section,
excluding the errored section from the percentage math would give 100, but
`generate_detailed_summary` divides by the count of all sections and
returns 50. -/
theorem compliance_percentage_counterexample :
    (generate_detailed_summary c6secs [] []).compliance_metrics.compliance_percentage = 50 ∧
    ((c6secs.countP (fun s => s.status == "compliant") : ℚ) /
        (c6secs.countP (fun s => !(s.status == "error")) : ℚ)) * 100 = 100 ∧
    (50 : ℚ) ≠ 100 := by
  refine ⟨?_, ?_, by norm_num⟩
  · simp [generate_detailed_summary, c6secs]
    norm_num
  · simp [c6secs]

/-- C6 amended: the aggregator computes
compliance_percentage = compliant/total · 100 where total counts all
sections — error-status sections included in the denominator — and 0 when
there are no sections; the value is always a well-defined rational in
[0, 100] (no division error). -/
theorem compliance_percentage_total (section_results : List SectionResult)
    (findings : List Finding) (checks : List SourceMatch) :
    ((generate_detailed_summary section_results findings checks).compliance_metrics.compliant_sections
        = section_results.countP (fun s => s.status == "compliant") ∧
     (generate_detailed_summary section_results findings checks).compliance_metrics.non_compliant_sections
        = section_results.length -
            section_results.countP (fun s => s.status == "compliant")) ∧
    (generate_detailed_summary section_results findings checks).compliance_metrics.compliance_percentage
      = (if section_results.isEmpty then 0
         else ((section_results.countP (fun s => s.status == "compliant") : ℚ) /
                (section_results.length : ℚ)) * 100) ∧
    0 ≤ (generate_detailed_summary section_results findings checks).compliance_metrics.compliance_percentage ∧
    (generate_detailed_summary section_results findings checks).compliance_metrics.compliance_percentage ≤ 100 := by
  have hpct : (generate_detailed_summary section_results findings checks).compliance_metrics.compliance_percentage
      = (if section_results.isEmpty then 0
         else ((section_results.countP (fun s => s.status == "compliant") : ℚ) /
                (section_results.length : ℚ)) * 100) := by
    simp only [generate_detailed_summary]
    by_cases h : section_results.isEmpty <;> simp [h]
  refine ⟨⟨by simp [generate_detailed_summary], by simp [generate_detailed_summary]⟩, hpct, ?_, ?_⟩
  · rw [hpct]
    by_cases h : section_results.isEmpty
    · simp [h]
    · rw [if_neg h]
      positivity
  · rw [hpct]
    by_cases h : section_results.isEmpty
    · simp [h]
    · rw [if_neg h]
      have hne : section_results ≠ [] := by simpa [List.isEmpty_iff] using h
      have hlen : (0 : ℚ) < (section_results.length : ℚ) := by
        exact_mod_cast List.length_pos.mpr hne
      have hcount : ((section_results.countP (fun s => s.status == "compliant")) : ℚ)
          ≤ (section_results.length : ℚ) := by
        exact_mod_cast List.countP_le_length _
      have hdiv : ((section_results.countP (fun s => s.status == "compliant")) : ℚ) /
          (section_results.length : ℚ) ≤ 1 :=
        div_le_one_of_le₀ hcount (le_of_lt hlen)
      linarith

theorem foldl_append_map {α β : Type} (g : α → β) (init : List β) (l : List α) :
    l.foldl (fun r a => r ++ [g a]) init = init ++ l.map g := by
  induction l generalizing init with
  | nil => simp
  | cons a as ih => simp [ih]

/-- C7: `generate_recommendations` emits exactly, and in exactly this
order: (1) when high-risk findings exist, one general advisory plus a
keyword advisory for each of the first three; (2) when problematic
sections exist, a count advisory plus — only when more than three — a
focus-on-worst-first advisory; (3) when total findings exceed five, a
comprehensive-review advisory; (4) only when steps 1–3 produced nothing, a
single fallback: a review reminder when any findings exist, else the
good-compliance message. -/
theorem recommendation_synthesis_order (findings : List Finding)
    (problematic : List SectionResult) :
    generate_recommendations findings problematic =
      (let high := findings.filter (fun f => f.risk_level == "high_risk")
       let p1 : List String :=
         if high.isEmpty then []
         else "Address high-risk compliance issues identified in the key findings section." ::
           (high.take 3).map (fun f =>
             "Review and revise content related to '" ++ findingKeyword f ++
               "' to ensure compliance.")
       let p2 : List String :=
         if problematic.isEmpty then []
         else ("Review " ++ toString problematic.length ++
               " sections identified as potentially non-compliant.") ::
           (if 3 < problematic.length then
              ["Focus on the most problematic sections first (those with highest non-compliance confidence)."]
            else [])
       let p3 : List String :=
         if 5 < findings.length then
           ["Consider a comprehensive compliance review as multiple potential issues were identified."]
         else []
       let p4 : List String :=
         if (p1 ++ p2 ++ p3).isEmpty then
           if findings.isEmpty then
             ["Document appears to have good compliance, but regular reviews are recommended."]
           else ["Review identified findings to ensure full compliance with relevant regulations."]
         else []
       p1 ++ p2 ++ p3 ++ p4) := by
  simp only [generate_recommendations, foldl_append_map, List.nil_append]
  by_cases h1 : (findings.filter (fun f => f.risk_level == "high_risk")).isEmpty <;>
    by_cases h2 : problematic.isEmpty <;>
      by_cases h3 : 3 < problematic.length <;>
        by_cases h4 : 5 < findings.length <;>
          by_cases h5 : findings.isEmpty <;>
            simp [h1, h2, h3, h4, h5, List.append_assoc]


theorem first_part_length_eq : first_part_length = 2457 := by
  have h : (⌊(docMaxLength : ℚ) * (6/10)⌋ : ℤ) = 2457 := by
    rw [Int.floor_eq_iff]
    constructor <;> norm_num [docMaxLength]
  simp [first_part_length, h]

theorem last_part_length_eq : last_part_length = 1639 := by
  simp [last_part_length, first_part_length_eq, docMaxLength]

theorem emptyCheck_false_of_head (c : Char) (cs : List Char) (hc : isWsA c = false) :
    emptyCheck (c :: cs) = false := by
  have h1 : (c :: cs).dropWhile isWsA = c :: cs := by
    rw [List.dropWhile_cons, if_neg (by simp [hc])]
  have h2 : ((c :: cs).reverse.dropWhile isWsA) ≠ [] := by
    intro hnil
    rw [List.dropWhile_eq_nil_iff] at hnil
    exact absurd (hnil c (by simp)) (by simp [hc])
  simp [emptyCheck, pyStripL, h1, List.isEmpty_iff, List.reverse_eq_nil_iff, h2]
  exact ⟨c, Or.inr rfl, hc⟩

theorem bigText_not_ws : emptyCheck bigText.data = false := by
  rw [show bigText.data = 'a' :: List.replicate 4096 'a' from rfl]
  exact emptyCheck_false_of_head 'a' _ (by decide)

theorem analyze_document_truncation (clf : Clf) (text : String)
    (h : emptyCheck text.data = false) :
    analyzedTextOf (analyze_document clf text) =
      some (if 4096 < text.data.length then
              text.data.take 2457 ++ text.data.drop (text.data.length - 1639)
            else text.data) ∧
    truncatedOf (analyze_document clf text) = some (decide (4096 < text.data.length)) := by
  have hne : ¬ (emptyCheck text.data = true) := by simp [h]
  simp only [analyze_document, if_neg hne, analyzedTextOf, truncatedOf,
    first_part_length_eq, last_part_length_eq, docMaxLength, decide_eq_true_eq]
  exact ⟨trivial, trivial⟩

/-- C1 amended: for non-whitespace-only text of length L > 4096,
`analyze_document` analyzes exactly the first `int(0.6*4096) = 2457`
characters concatenated with the last `4096 − 2457 = 1639` characters
(one more than `⌊0.4·4096⌋`), and sets `truncated` to true; for
non-whitespace-only text with L ≤ 4096 the analyzed text is the input,
and `truncated` is false. -/
theorem truncation_policy (clf : Clf) (text : String)
    (h : emptyCheck text.data = false) :
    analyzedTextOf (analyze_document clf text) =
      some (if 4096 < text.data.length then
              text.data.take 2457 ++ text.data.drop (text.data.length - 1639)
            else text.data) ∧
    truncatedOf (analyze_document clf text) = some (decide (4096 < text.data.length)) :=
  analyze_document_truncation clf text h

/-- C1 counterexample: on a 4097-character document, the analyzed text is
the first 2457 plus the last 1639 characters (4096 in total), not the
first 2457 plus the last ⌊0.4·4096⌋ = 1638 (4095 in total) that the claim
describes. -/
theorem truncation_policy_counterexample :
    analyzedTextOf (analyze_document clf0 bigText) ≠
      some (bigText.data.take 2457 ++ bigText.data.drop (bigText.data.length - 1638)) := by
  have h := (analyze_document_truncation clf0 bigText bigText_not_ws).1
  have hlen4097 : bigText.data.length = 4097 := by
    rw [show bigText.data = List.replicate 4097 'a' from rfl, List.length_replicate]
  rw [h]
  simp only [hlen4097]
  rw [if_pos (by norm_num : (4096 : Nat) < 4097)]
  intro hcontra
  have heq := Option.some.inj hcontra
  have hl := congrArg List.length heq
  simp only [List.length_append, List.length_take, List.length_drop, hlen4097] at hl
  omega

/-- C1 witness: the 4097-character non-whitespace input exercises the
truncation branch. -/
theorem truncation_policy_witness :
    emptyCheck bigText.data = false ∧
    (analyzedTextOf (analyze_document clf0 bigText) =
       some (if 4096 < bigText.data.length then
               bigText.data.take 2457 ++ bigText.data.drop (bigText.data.length - 1639)
             else bigText.data) ∧
     truncatedOf (analyze_document clf0 bigText) = some (decide (4096 < bigText.data.length))) :=
  ⟨bigText_not_ws, truncation_policy clf0 bigText bigText_not_ws⟩

theorem collapseGo_mem (l : List Char) : ∀ (b : Bool) (c : Char), c ∈ collapseGo b l →
    c = ' ' ∨ (c ∈ l ∧ isWsA c = false) := by
  induction l with
  | nil => intro b c hc; simp [collapseGo] at hc
  | cons d ds ih =>
    intro b c hc
    rw [collapseGo] at hc
    by_cases hd : isWsA d = true
    · rw [if_pos hd] at hc
      cases b with
      | true =>
        rw [if_pos rfl] at hc
        rcases ih true c hc with h | ⟨h1, h2⟩
        · exact Or.inl h
        · exact Or.inr ⟨List.mem_cons_of_mem d h1, h2⟩
      | false =>
        rw [if_neg (by simp)] at hc
        rcases List.mem_cons.mp hc with h | h
        · exact Or.inl h
        · rcases ih true c h with h' | ⟨h1, h2⟩
          · exact Or.inl h'
          · exact Or.inr ⟨List.mem_cons_of_mem d h1, h2⟩
    · rw [if_neg hd] at hc
      rcases List.mem_cons.mp hc with h | h
      · subst h
        exact Or.inr ⟨List.mem_cons_self c ds, by simpa using hd⟩
      · rcases ih false c h with h' | ⟨h1, h2⟩
        · exact Or.inl h'
        · exact Or.inr ⟨List.mem_cons_of_mem d h1, h2⟩

theorem pyStripL_mem (c : Char) (l : List Char) (h : c ∈ pyStripL l) : c ∈ l := by
  simp only [pyStripL, List.mem_reverse] at h
  have h1 := (List.dropWhile_sublist _).mem h
  rw [List.mem_reverse] at h1
  exact (List.dropWhile_sublist _).mem h1

theorem pyStripL_length_le (l : List Char) : (pyStripL l).length ≤ l.length := by
  simp only [pyStripL, List.length_reverse]
  calc (List.dropWhile isWsA (List.dropWhile isWsA l).reverse).length
      ≤ (List.dropWhile isWsA l).reverse.length := (List.dropWhile_sublist _).length_le
    _ = (List.dropWhile isWsA l).length := List.length_reverse _
    _ ≤ l.length := (List.dropWhile_sublist _).length_le

theorem truncStep_length_le (ml : Nat) (l : List Char) :
    (truncStep ml l).length ≤ ml + 3 := by
  rw [truncStep]
  have hdots : ("...".data).length = 3 := rfl
  by_cases h : ml < l.length
  · rw [if_pos h]
    by_cases hsp : (l.take ml).contains ' ' = true
    · rw [if_pos hsp]
      rw [List.length_append, hdots, List.length_take, List.length_take]
      omega
    · rw [if_neg hsp]
      rw [List.length_append, hdots, List.length_take]
      omega
  · rw [if_neg h]
    omega

theorem truncStep_mem (ml : Nat) (l : List Char) (c : Char) (h : c ∈ truncStep ml l) :
    c ∈ l ∨ c = '.' := by
  rw [truncStep] at h
  by_cases h1 : ml < l.length
  · rw [if_pos h1] at h
    by_cases h2 : (l.take ml).contains ' ' = true
    · rw [if_pos h2] at h
      rcases List.mem_append.mp h with h3 | h3
      · exact Or.inl (List.mem_of_mem_take (List.mem_of_mem_take h3))
      · right
        rw [show "...".data = ['.', '.', '.'] from rfl] at h3
        simpa using h3
    · rw [if_neg h2] at h
      rcases List.mem_append.mp h with h3 | h3
      · exact Or.inl (List.mem_of_mem_take h3)
      · right
        rw [show "...".data = ['.', '.', '.'] from rfl] at h3
        simpa using h3
  · rw [if_neg h1] at h
    exact Or.inl h

theorem np_all (l : List Char) (h : npcount l = 0) :
    ∀ c ∈ l, (isPrintableA c || isWsA c) = true := by
  intro c hc
  rw [npcount, List.length_eq_zero] at h
  have h2 := List.filter_eq_nil_iff.mp h c hc
  cases hor : (isPrintableA c || isWsA c) with
  | true => rfl
  | false => exact absurd (by simp [hor]) h2

theorem mainCleaned_chars (l : List Char) (c : Char) (hc : c ∈ mainCleaned l) :
    c = ' ' ∨ (isPrintableA c = true ∧ isWsA c = false ∧ c ∈ l) := by
  rw [mainCleaned, collapseWs] at hc
  rcases collapseGo_mem _ false c hc with rfl | ⟨hmem, hw⟩
  · exact Or.inl rfl
  · right
    have hmem2 : c ∈ (if 0 < npcount l then replaceNP l else l) :=
      List.mem_of_mem_filter hmem
    by_cases hnp : 0 < npcount l
    · rw [if_pos hnp] at hmem2
      obtain ⟨d, hd, hdc⟩ := List.mem_map.mp hmem2
      by_cases hdp : (isPrintableA d || isWsA d) = true
      · rw [if_pos hdp] at hdc
        subst hdc
        have hp : isPrintableA d = true := by
          rcases Bool.or_eq_true_iff.mp hdp with h | h
          · exact h
          · exact absurd h (by simp [hw])
        exact ⟨hp, hw, hd⟩
      · rw [if_neg hdp] at hdc
        subst hdc
        exact absurd hw (by decide)
    · rw [if_neg hnp] at hmem2
      have hnp0 : npcount l = 0 := by omega
      have hpw := np_all l hnp0 c hmem2
      have hp : isPrintableA c = true := by
        rcases Bool.or_eq_true_iff.mp hpw with h | h
        · exact h
        · exact absurd h (by simp [hw])
      exact ⟨hp, hw, hmem2⟩

theorem printable_ascii_not_ctrl (c : Char) (hp : isPrintableA c = true)
    (h128 : c.toNat < 128) : isCtrl c = false := by
  rw [isPrintableA] at hp
  have hp' := of_decide_eq_true hp
  rw [isCtrl]
  apply decide_eq_false
  intro hctr
  rcases hp' with ⟨h1, h2⟩ | h3 <;> rcases hctr with h4 | h4 <;> omega

/-- C9 amended: for every ASCII input on the general cleaning path — the
input is not PDF-signed, contains no XML/HTML tag pair, and is at most 30%
non-printable — `clean_text_for_preview` at the default `max_length` 100
returns at most 100 + 3 characters and no control characters.  (The
special-case branches violate the claim: the PDF, XML and binary-fragment
branches echo unbounded input fragments and do not strip controls.) -/
theorem clean_preview_general_path_bounded (text : String)
    (hA : ∀ c ∈ text.data, c.toNat < 128)
    (hpdf : startsL "%PDF".data (pyStripL text.data) = false)
    (hxml : hasXmlTag text.data = false)
    (hbin : ¬ ((3 : ℚ)/10 * (text.data.length : ℚ) < (npcount text.data : ℚ))) :
    (clean_text_for_preview text 100).length ≤ 100 + 3 ∧
    ∀ c ∈ (clean_text_for_preview text 100).data, isCtrl c = false := by
  show (cleanCore 100 text.data).length ≤ 103 ∧
    ∀ c ∈ cleanCore 100 text.data, isCtrl c = false
  rw [cleanCore]
  by_cases hemp : emptyCheck text.data = true
  · rw [if_pos hemp]
    exact ⟨by decide, by decide⟩
  · rw [if_neg hemp, if_neg (by simp [hpdf]), if_neg (by simp [hxml]), if_neg hbin]
    by_cases h1 : anyPos objPatAt (mainCleaned text.data) = true
    · rw [if_pos h1]
      exact ⟨by decide, by decide⟩
    · rw [if_neg h1]
      by_cases h2 : anyPos streamPatAt (mainCleaned text.data) = true
      · rw [if_pos h2]
        exact ⟨by decide, by decide⟩
      · rw [if_neg h2]
        by_cases h3 : containsL "base64,".data (mainCleaned text.data) = true
        · rw [if_pos h3]
          exact ⟨by decide, by decide⟩
        · rw [if_neg h3]
          by_cases h4 : anyPos hexEscAt (mainCleaned text.data) = true
          · rw [if_pos h4]
            exact ⟨by decide, by decide⟩
          · rw [if_neg h4]
            by_cases h5 : (pyStripL (truncStep 100 (mainCleaned text.data))).isEmpty = true
            · rw [if_pos h5]
              exact ⟨by decide, by decide⟩
            · rw [if_neg h5]
              constructor
              · calc (pyStripL (truncStep 100 (mainCleaned text.data))).length
                    ≤ (truncStep 100 (mainCleaned text.data)).length :=
                      pyStripL_length_le _
                  _ ≤ 103 := truncStep_length_le 100 _
              · intro c hc
                have hct2 : c ∈ truncStep 100 (mainCleaned text.data) :=
                  pyStripL_mem c _ hc
                rcases truncStep_mem 100 _ c hct2 with hct | rfl
                · rcases mainCleaned_chars text.data c hct with rfl | ⟨hp, hw, hcl⟩
                  · decide
                  · exact printable_ascii_not_ctrl c hp (hA c hcl)
                · decide

theorem hello_not_bin :
    ¬ ((3 : ℚ)/10 * ("hello world".data.length : ℚ) < (npcount "hello world".data : ℚ)) := by
  have h1 : npcount "hello world".data = 0 := by decide
  have h2 : "hello world".data.length = 11 := by decide
  rw [h1, h2]
  norm_num

/-- C9 witness: the plain ASCII text "hello world" takes the general path
and satisfies both bounds. -/
theorem clean_preview_general_path_bounded_witness :
    ((∀ c ∈ "hello world".data, c.toNat < 128) ∧
     startsL "%PDF".data (pyStripL "hello world".data) = false ∧
     hasXmlTag "hello world".data = false ∧
     ¬ ((3 : ℚ)/10 * ("hello world".data.length : ℚ) < (npcount "hello world".data : ℚ))) ∧
    ((clean_text_for_preview "hello world" 100).length ≤ 100 + 3 ∧
     ∀ c ∈ (clean_text_for_preview "hello world" 100).data, isCtrl c = false) :=
  ⟨⟨by decide, by decide, by decide, hello_not_bin⟩,
   clean_preview_general_path_bounded "hello world" (by decide) (by decide) (by decide)
     hello_not_bin⟩

/-- C9 counterexample: the PDF branch echoes the 90-character Title group
into the preview, so the output has 104 > 100 + 3 characters. -/
theorem clean_preview_counterexample :
    ¬ ((clean_text_for_preview pdfEx 100).length ≤ 100 + 3) := by decide
